import Mathlib

/-!
# Verification of the nerd-radar researcher-enrichment pipeline

Shallow embedding of the pipeline routes of the `nerd-radar` repository:

* `src/researcher-finder/src/app/api/search-papers/route.ts` — fallback query
  generation, ArXiv response parsing, the date-cutoff filter and the
  three-tier fallback ladder;
* the researcher-analysis route (`extractResearcherContacts`,
  `enhanceResearcherInfo`);
* the Google-Scholar batch-enrichment route;
* the contact-extraction route (`extractContactDetails` and its poll loop).

JavaScript strings are modelled as Lean `String`s (operations re-implemented
on `List Char` so that everything is kernel-computable); `Date` values are
modelled as day counts from the civil epoch (time-of-day and timezone play
no role in any property considered here); network responses, the AI client
and the regex primitives that no property depends on are explicit
parameters.
-/

set_option maxRecDepth 40000

namespace NerdRadar

/-! ## JavaScript string primitives -/

/-- ASCII lower-casing of one character, as `String.prototype.toLowerCase`
acts on the ASCII inputs this pipeline deals with. -/
def lowerChar (c : Char) : Char :=
  if 'A' ≤ c ∧ c ≤ 'Z' then Char.ofNat (c.toNat + 32) else c

/-- `s.toLowerCase()`. -/
def jsToLower (s : String) : String :=
  String.mk (s.data.map lowerChar)

/-- Substring containment on character lists (`String.prototype.includes`). -/
def listIncludes (needle : List Char) : List Char → Bool
  | [] => needle.isEmpty
  | c :: t => needle.isPrefixOf (c :: t) || listIncludes needle t

/-- `s.includes(sub)`. -/
def strIncludes (s sub : String) : Bool :=
  listIncludes sub.data s.data

/-! ## Query Translator fallback (`generateFallbackQuery`, route.ts:54-80) -/

/-- `generateFallbackQuery` from the search-papers route: the deterministic
keyword-to-category mapping tried when the AI translator is unavailable. -/
def generateFallbackQuery (query : String) : String :=
  let queryLower := jsToLower query
  if strIncludes queryLower "machine learning" || strIncludes queryLower "ml" then
    "cat:cs.LG"
  else if strIncludes queryLower "computer vision" || strIncludes queryLower "cv" then
    "cat:cs.CV"
  else if strIncludes queryLower "natural language processing" || strIncludes queryLower "nlp" then
    "cat:cs.CL"
  else if strIncludes queryLower "robotics" then
    "cat:cs.RO"
  else if strIncludes queryLower "quantum" then
    "cat:quant-ph"
  else if strIncludes queryLower "physics" then
    "cat:physics"
  else if strIncludes queryLower "mathematics" || strIncludes queryLower "math" then
    "cat:math"
  else if strIncludes queryLower "ai" || strIncludes queryLower "artificial intelligence" then
    "cat:cs.AI"
  else if strIncludes queryLower "healthcare" || strIncludes queryLower "medical" then
    "all:\"" ++ query ++ "\""
  else
    "all:\"" ++ query ++ "\""

/-- The category queries the fallback table can produce. -/
def categoryQueries : List String :=
  ["cat:cs.LG", "cat:cs.CV", "cat:cs.CL", "cat:cs.RO",
   "cat:quant-ph", "cat:physics", "cat:math", "cat:cs.AI"]

/-! ## JS `Date` at day granularity

`new Date(y, m, d)` and ISO-parsed `new Date("YYYY-MM-DD")` values are
compared by their millisecond timestamps; at the day granularity used by the
date filter this is the civil-calendar day number.  Out-of-range month and
day arguments are normalised by JS exactly as the linear day/month arithmetic
below does. -/

/-- Civil-calendar day count (days since 1970-01-01) for a 1-based month and
a day that may overflow the month, computed with floor division. -/
def daysFromCivil (y m d : Int) : Int :=
  let y := if m ≤ 2 then y - 1 else y
  let era := y.fdiv 400
  let yoe := y - era * 400
  let doy := (153 * (m + (if m > 2 then (-3 : Int) else 9)) + 2).fdiv 5 + d - 1
  let doe := yoe * 365 + yoe.fdiv 4 - yoe.fdiv 100 + doy
  era * 146097 + doe - 719468

/-- Day value of `new Date(y, m0, d)` with a 0-based month `m0` that may be
negative or beyond 11 (JS normalises it into the year). -/
def jsDateValue (y m0 d : Int) : Int :=
  let t := y * 12 + m0
  daysFromCivil (t.fdiv 12) (t.emod 12 + 1) d

/-- Numeric value of an ASCII digit. -/
def digitVal (c : Char) : Option Int :=
  if '0' ≤ c ∧ c ≤ '9' then some ((c.toNat : Int) - 48) else none

/-- Day value of `new Date(s)` for an ISO `YYYY-MM-DD` string; `none` stands
for JS `Invalid Date` (`NaN`), which compares false against everything. -/
def parsePublished (s : String) : Option Int :=
  match s.data with
  | [y1, y2, y3, y4, h1, m1, m2, h2, d1, d2] =>
    if h1 = '-' ∧ h2 = '-' then
      match digitVal y1, digitVal y2, digitVal y3, digitVal y4,
            digitVal m1, digitVal m2, digitVal d1, digitVal d2 with
      | some a, some b, some c, some d, some e, some f, some g, some h =>
        let mo := 10 * e + f
        let da := 10 * g + h
        if 1 ≤ mo ∧ mo ≤ 12 ∧ 1 ≤ da ∧ da ≤ 31 then
          some (daysFromCivil (1000 * a + 100 * b + 10 * c + d) mo da)
        else none
      | _, _, _, _, _, _, _, _ => none
    else none
  | _ => none

/-- The filter's skip test `new Date(published) < cutoffDate`: false whenever
the published string does not parse (NaN comparison). -/
def jsDateLt (published : String) (cutoff : Int) : Bool :=
  match parsePublished published with
  | some v => decide (v < cutoff)
  | none => false

/-- `paperDate < cutoffDate` against an optional cutoff (`null` = no
filtering, the skip test is never reached). -/
def jsDateLtOpt (cutoff : Option Int) (published : String) : Bool :=
  match cutoff with
  | some c => jsDateLt published c
  | none => false

/-- The `duration` filter values recognised by the cutoff `switch`
(route.ts:136-155), plus `all`. -/
inductive Duration where
  | oneMonth | threeMonths | sixMonths | oneYear | twoYears | fiveYears | all
deriving DecidableEq, Repr

/-- The cutoff date computed from the duration and the current date
(`now.getMonth()` is 0-based), route.ts:132-156. -/
def cutoffDays (dur : Duration) (nowY nowM0 nowD : Int) : Option Int :=
  match dur with
  | .all => none
  | .oneMonth => some (jsDateValue nowY (nowM0 - 1) nowD)
  | .threeMonths => some (jsDateValue nowY (nowM0 - 3) nowD)
  | .sixMonths => some (jsDateValue nowY (nowM0 - 6) nowD)
  | .oneYear => some (jsDateValue (nowY - 1) nowM0 nowD)
  | .twoYears => some (jsDateValue (nowY - 2) nowM0 nowD)
  | .fiveYears => some (jsDateValue (nowY - 5) nowM0 nowD)

/-! ## Pattern-matching primitives for the ArXiv response

The route parses the ArXiv Atom response with JS regexes.  Non-greedy
literal-delimited matches are implemented below: a match of
`open[\s\S]*?close` takes the first occurrence of `open` and the first
occurrence of `close` after it, and `(.*?)` additionally rejects bodies
containing a newline, retrying from the next occurrence of `open`. -/

/-- Split at the first occurrence of `needle`: the part strictly before it
and the part strictly after it, `none` when absent.  (All needles used are
nonempty.) -/
def splitFirst (needle : List Char) : List Char → Option (List Char × List Char)
  | [] => none
  | c :: cs =>
    if needle.isPrefixOf (c :: cs) then some ([], (c :: cs).drop needle.length)
    else
      match splitFirst needle cs with
      | some (pre, post) => some (c :: pre, post)
      | none => none

/-- All matches of the global regex `open[\s\S]*?close` (tags included),
continuing after each match — the `/<entry>[\s\S]*?<\/entry>/g` scan.
Structural recursion on a fuel argument: every successful round removes at
least the nonempty open and close tags from the text, so starting the fuel
at the text length it can never run out before `splitFirst` fails, and the
fuel-free recursion is computed exactly. -/
def tagBlocksF (openT closeT : List Char) : Nat → List Char → List (List Char)
  | 0, _ => []
  | fuel + 1, cs =>
    match splitFirst openT cs with
    | none => []
    | some (_, rest) =>
      match splitFirst closeT rest with
      | none => []
      | some (body, rest2) =>
        (openT ++ body ++ closeT) :: tagBlocksF openT closeT fuel rest2

/-- All matches of `open[\s\S]*?close` in `cs`. -/
def tagBlocks (openT closeT cs : List Char) : List (List Char) :=
  tagBlocksF openT closeT cs.length cs

/-- First match of `open([\s\S]*?)close`, returning the captured body. -/
def extractBetween (openT closeT cs : List Char) : Option (List Char) :=
  match splitFirst openT cs with
  | none => none
  | some (_, rest) =>
    match splitFirst closeT rest with
    | none => none
    | some (body, _) => some body

/-- Fuelled scan for the first match of `open(.*?)close` (`.` excludes
newlines): the captured body and the remainder after the closing tag; a body
crossing a newline makes the regex retry from the next occurrence of `open`.
As with `tagBlocksF`, fuel equal to the text length never runs out early. -/
def extractBetweenLineF (openT closeT : List Char) :
    Nat → List Char → Option (List Char × List Char)
  | 0, _ => none
  | fuel + 1, cs =>
    match splitFirst openT cs with
    | none => none
    | some (_, rest) =>
      match splitFirst closeT rest with
      | none => none
      | some (body, rest2) =>
        if '\n' ∈ body then extractBetweenLineF openT closeT fuel rest
        else some (body, rest2)

/-- First match of `open(.*?)close` in `cs`: captured body and remainder. -/
def extractBetweenLine (openT closeT cs : List Char) :
    Option (List Char × List Char) :=
  extractBetweenLineF openT closeT cs.length cs

/-! ## Whitespace handling (`replace(/\s+/g, ' ')`, `trim`) -/

/-- JS regex `\s` on the ASCII range. -/
def isJsWs (c : Char) : Bool :=
  c = ' ' ∨ c = '\t' ∨ c = '\n' ∨ c = '\r' ∨ c = '\x0b' ∨ c = '\x0c'

/-- `replace(/\s+/g, ' ')`: collapse every whitespace run to one space. -/
def collapseWs : List Char → List Char
  | [] => []
  | [c] => if isJsWs c then [' '] else [c]
  | c1 :: c2 :: cs =>
    if isJsWs c1 ∧ isJsWs c2 then collapseWs (c2 :: cs)
    else (if isJsWs c1 then ' ' else c1) :: collapseWs (c2 :: cs)

/-- `trim()`. -/
def trimChars (cs : List Char) : List Char :=
  ((cs.dropWhile isJsWs).reverse.dropWhile isJsWs).reverse

/-- `s.trim()` on strings. -/
def jsTrim (s : String) : String :=
  String.mk (trimChars s.data)

/-- `.replace(/\s+/g, ' ').trim()` as applied to titles and summaries. -/
def normalizeSpaces (cs : List Char) : List Char :=
  trimChars (collapseWs cs)

/-- `s.replace(pat, repl)` with a string pattern: first occurrence only. -/
def replaceFirst (s pat repl : String) : String :=
  match splitFirst pat.data s.data with
  | none => s
  | some (pre, post) => String.mk (pre ++ repl.data ++ post)

/-- `link.split('/').pop()`: the part after the last `/` (the whole string
when there is no `/`). -/
def lastSlashComponent (cs : List Char) : List Char :=
  (cs.reverse.takeWhile (· ≠ '/')).reverse

/-! ## Paper Source Adapter: entry parsing and the fallback ladder -/

/-- The `Paper` record built by the search-papers route. -/
structure Paper where
  id : String
  title : String
  authors : List String
  summary : String
  published : String
  link : String
  pdf_url : String
deriving DecidableEq, Repr

/-- `entry.match(/<title>([\s\S]*?)<\/title>/)`. -/
def entryTitle (e : List Char) : Option (List Char) :=
  extractBetween "<title>".data "</title>".data e

/-- `entry.match(/<summary>([\s\S]*?)<\/summary>/)`. -/
def entrySummary (e : List Char) : Option (List Char) :=
  extractBetween "<summary>".data "</summary>".data e

/-- `entry.match(/<published>(.*?)<\/published>/)`. -/
def entryPublished (e : List Char) : Option (List Char) :=
  (extractBetweenLine "<published>".data "</published>".data e).map Prod.fst

/-- `entry.match(/<id>(.*?)<\/id>/)`. -/
def entryId (e : List Char) : Option (List Char) :=
  (extractBetweenLine "<id>".data "</id>".data e).map Prod.fst

/-- One round of `/<author>[\s\S]*?<name>(.*?)<\/name>[\s\S]*?<\/author>/g`
followed by the per-match `<name>(.*?)<\/name>` re-extraction: the raw name
captures in match order (fuelled like the other scanners). -/
def authorNameCapturesF : Nat → List Char → List (List Char)
  | 0, _ => []
  | fuel + 1, cs =>
    match splitFirst "<author>".data cs with
    | none => []
    | some (_, r1) =>
      match extractBetweenLine "<name>".data "</name>".data r1 with
      | none => []
      | some (name, r2) =>
        match splitFirst "</author>".data r2 with
        | none => []
        | some (_, r3) => name :: authorNameCapturesF fuel r3

/-- `authorMatches.map(... nameMatch[1].trim() ...).filter(name => name)`:
author names of one entry, trimmed, empty names dropped. -/
def entryAuthors (e : List Char) : List String :=
  (authorNameCapturesF e.length e).filterMap fun n =>
    let t := trimChars n
    if t.isEmpty then none else some (String.mk t)

/-- `link.split('/').pop() || 'N/A'`. -/
def arxivIdOf (link : String) : String :=
  let last := lastSlashComponent link.data
  if last.isEmpty then "N/A" else String.mk last

/-- `link.replace('/abs/', '/pdf/') + '.pdf'`. -/
def pdfUrlOf (link : String) : String :=
  replaceFirst link "/abs/" "/pdf/" ++ ".pdf"

/-- The per-entry body of the primary loop (route.ts:158-199), also used by
the simplified-fallback loop (route.ts:220-259): requires all four field
matches, applies the date cutoff (skipping papers with
`new Date(published) < cutoffDate`), and assembles the `Paper`. -/
def parseEntry (cutoff : Option Int) (entry : List Char) : Option Paper :=
  match entryTitle entry, entrySummary entry, entryPublished entry, entryId entry with
  | some t, some s, some p, some i =>
    let title := String.mk (normalizeSpaces t)
    let summary := String.mk (normalizeSpaces s)
    let published := String.mk (p.take 10)
    let link := String.mk (trimChars i)
    if jsDateLtOpt cutoff published then none
    else some
      { id := arxivIdOf link
        title := title
        authors := entryAuthors entry
        summary := summary
        published := published
        link := link
        pdf_url := pdfUrlOf link }
  | _, _, _, _ => none

/-- The per-entry body of the last-resort loop (route.ts:282-306): same four
required fields, no date cutoff, and the authors list hardcoded to
`['Sample Research']`. -/
def parseEntrySample (entry : List Char) : Option Paper :=
  match entryTitle entry, entrySummary entry, entryPublished entry, entryId entry with
  | some t, some s, some p, some i =>
    let title := String.mk (normalizeSpaces t)
    let summary := String.mk (normalizeSpaces s)
    let published := String.mk (p.take 10)
    let link := String.mk (trimChars i)
    some
      { id := arxivIdOf link
        title := title
        authors := ["Sample Research"]
        summary := summary
        published := published
        link := link
        pdf_url := pdfUrlOf link }
  | _, _, _, _ => none

/-- `xmlData.match(/<entry>[\s\S]*?<\/entry>/g) || []`. -/
def xmlEntries (doc : String) : List (List Char) :=
  tagBlocks "<entry>".data "</entry>".data doc.data

/-- The loop over entries shared by the primary and fallback tiers. -/
def processEntries (cutoff : Option Int) (entries : List (List Char)) : List Paper :=
  entries.filterMap (parseEntry cutoff)

/-- A well-formed entry: all four required field matches (title, summary,
published, id) succeed — the condition under which the per-entry loop emits
a record. -/
def wellFormedEntry (e : List Char) : Bool :=
  (entryTitle e).isSome && (entrySummary e).isSome &&
    (entryPublished e).isSome && (entryId e).isSome

/-- The first two tiers of the paper-assembly part of the search-papers
`POST` handler (route.ts:124-266).  `doc1` is the ArXiv response to the
primary query; `doc2` is the response of the simplified-fallback request
(`none` models a failed fetch or non-ok response, whose exception that
tier's `try`/`catch` swallows).  The fallback request is issued only when
the primary tier yields zero papers; its entries are cut to
`slice(0, maxResults)` and run through the same per-entry logic. -/
def searchPapersTier12 (cutoff : Option Int) (maxResults : Nat)
    (doc1 : String) (doc2 : Option String) : List Paper :=
  let papers1 := processEntries cutoff (xmlEntries doc1)
  if papers1.isEmpty then
    match doc2 with
    | some d => papers1 ++ processEntries cutoff ((xmlEntries d).take maxResults)
    | none => papers1
  else papers1

/-- The full three-tier ladder: the last-resort request (`slice(0, 5)` of
its entries, no date filter, placeholder authors) runs only when the first
two tiers end with zero papers. -/
def searchPapersPipeline (cutoff : Option Int) (maxResults : Nat)
    (doc1 : String) (doc2 doc3 : Option String) : List Paper :=
  let papers2 := searchPapersTier12 cutoff maxResults doc1 doc2
  if papers2.isEmpty then
    match doc3 with
    | some d => papers2 ++ ((xmlEntries d).take 5).filterMap parseEntrySample
    | none => papers2
  else papers2

/-! ## Researcher records (analyze-researchers route) -/

/-- `ArXivPaper` of the analyze-researchers route. -/
structure ArXivPaper where
  title : String
  published : String
  arxiv_id : String
  link : String
deriving DecidableEq, Repr

/-- `Researcher` of the analyze-researchers route. -/
structure Researcher where
  name : String
  email : Option String := none
  orcid : Option String := none
  institution : Option String := none
  website : Option String := none
  linkedin : Option String := none
  google_scholar : Option String := none
  researchgate : Option String := none
  research_areas : List String := []
  arxiv_papers : List ArXivPaper := []
  paper_count : Nat := 0
  additional_contacts : List String := []
deriving DecidableEq, Repr

/-! ## Profile Enricher batch (`enhanceResearcherInfo`)

`enhancedResearchers.sort((a, b) => b.paper_count - a.paper_count)` uses the
ES2019+ guarantee that `Array.prototype.sort` is stable; with this
comparator the result is the unique permutation that is descending in
`paper_count` and keeps equal counts in input order, which the stable
insertion sort below produces. -/

/-- Stable insertion into a descending-by-`paper_count` list: the new record
goes before the first element whose count is not strictly greater. -/
def insertByCount (r : Researcher) : List Researcher → List Researcher
  | [] => [r]
  | x :: xs =>
    if r.paper_count < x.paper_count then x :: insertByCount r xs
    else r :: x :: xs

/-- Stable sort by descending `paper_count`. -/
def sortByCountDesc : List Researcher → List Researcher
  | [] => []
  | r :: rs => insertByCount r (sortByCountDesc rs)

/-- `enhanceResearcherInfo`: every input researcher is enhanced inside a
`try`/`catch` and unconditionally pushed onto the output (an exception leaves
the partially-updated copy), then the batch is sorted by descending paper
count.  The per-researcher enrichment — ArXiv author search, Scholar-profile
suggestion, AI research-area tagging, including every partial-failure
outcome of the `catch` — is the oracle `enhance`. -/
def enhanceResearcherInfo (enhance : Researcher → Researcher)
    (researchers : List Researcher) : List Researcher :=
  sortByCountDesc (researchers.map enhance)

/-! ## Author/Contact Extractor (`extractResearcherContacts`)

The flat regex scans over the whole text (emails, ORCIDs, URLs, profile
URLs, phones) and the four capitalized-name patterns applied per line are
abstracted as matcher parameters: every property below holds for any
matcher semantics, and none of the bounded-scan properties depends on which
strings the regex engine returns. -/

/-- The global-regex primitives of `extractResearcherContacts`:
`emails`..`phones` are the whole-text scans, `nameMatches` is the
concatenation of the match lists of the four capitalized-name patterns on
one line, in pattern order. -/
structure TextMatchers where
  emails : String → List String
  orcids : String → List String
  urls : String → List String
  linkedin : String → List String
  scholar : String → List String
  researchgate : String → List String
  phones : String → List String
  nameMatches : String → List String

/-- A concrete matcher bundle for running the extractor on explicit inputs:
every whole-text scan comes back empty and each line is its own single
name-pattern match. -/
def lineEchoMatchers : TextMatchers where
  emails _ := []
  orcids _ := []
  urls _ := []
  linkedin _ := []
  scholar _ := []
  researchgate _ := []
  phones _ := []
  nameMatches l := [l]

/-- `s.split(sep)` for a one-character separator. -/
def splitOnChar (sep : Char) : List Char → List (List Char)
  | [] => [[]]
  | c :: cs =>
    if c = sep then [] :: splitOnChar sep cs
    else
      match splitOnChar sep cs with
      | [] => [[c]]
      | l :: ls => (c :: l) :: ls

/-- `text.split('\n').map(line => line.trim()).filter(line => line)`. -/
def nonEmptyLines (text : String) : List String :=
  (((splitOnChar '\n' text.data).map fun l => String.mk (trimChars l)).filter
    fun l => !l.isEmpty)

/-- The author-section trigger keywords. -/
def authorKeywords : List String :=
  ["author", "affiliation", "department", "university", "institute"]

/-- The push into `authorInfo`: length, dedup and anti-institution filters. -/
def pushName (acc : List String) (m : String) : List String :=
  if m.length > 3 && !acc.contains m
      && !strIncludes (jsToLower m) "university"
      && !strIncludes (jsToLower m) "institute"
      && !strIncludes (jsToLower m) "department" then
    acc ++ [m]
  else acc

/-- The candidate-name loop over the (already truncated) line list, carrying
the running index and the `inAuthorSection` flag. -/
def authorInfoLoop (nm : String → List String) :
    List String → Nat → Bool → List String → List String
  | [], _, _, acc => acc
  | line :: rest, i, inSec, acc =>
    let inSec := inSec ||
      authorKeywords.any fun kw => strIncludes (jsToLower line) kw
    let acc := if inSec || i < 15 then (nm line).foldl pushName acc else acc
    authorInfoLoop nm rest (i + 1) inSec acc

/-- `authorInfo` after the candidate-name scan: only the first
`min(lines.length, 30)` non-empty lines are visited. -/
def authorInfoOf (nm : String → List String) (text : String) : List String :=
  authorInfoLoop nm ((nonEmptyLines text).take 30) 0 false []

/-- The institution-line keywords. -/
def institutionKeywords : List String :=
  ["university", "institute", "college", "laboratory", "center", "department"]

/-- `institutions` after the keyword scan over the first
`min(lines.length, 35)` non-empty lines. -/
def institutionsOf (text : String) : List String :=
  ((nonEmptyLines text).take 35).filterMap fun line =>
    if institutionKeywords.any (fun kw => strIncludes (jsToLower line) kw) then
      if line.length > 10 && line.length < 200 then some (jsTrim line) else none
    else none

/-- `xs[i] || undefined`: absent index and empty string both give
`undefined`. -/
def jsIndexOr (l : List String) (i : Nat) : Option String :=
  match l.get? i with
  | some s => if s.isEmpty then none else some s
  | none => none

/-- The `additional_contacts` built for one researcher from the email and
phone scans. -/
def additionalContactsFor (emails phones : List String) (name : String) :
    List String :=
  let parts := splitOnChar ' ' name.data
  let first := jsToLower (String.mk (parts.headD []))
  let last := jsToLower (String.mk (parts.getLastD []))
  let fromEmails := emails.filterMap fun email =>
    if strIncludes (jsToLower email) first || strIncludes (jsToLower email) last
    then some ("Email: " ++ email) else none
  let fromPhones := phones.filterMap fun phone =>
    if phone.length > 8 then some ("Phone: " ++ jsTrim phone) else none
  fromEmails ++ fromPhones

/-- The website search: first URL containing a name part longer than 2. -/
def websiteFor (urls : List String) (name : String) : Option String :=
  let nameParts := (splitOnChar ' ' name.data).filter fun p => p.length > 2
  urls.find? fun url =>
    nameParts.any fun part => strIncludes (jsToLower url) (jsToLower (String.mk part))

/-- `extractResearcherContacts`: candidate names capped at 10, positionally
zipped with the email/ORCID/institution/profile scans. -/
def extractResearcherContacts (M : TextMatchers) (text : String) : List Researcher :=
  let emails := M.emails text
  let orcids := M.orcids text
  let urls := M.urls text
  let linkedinProfiles := M.linkedin text
  let scholarProfiles := M.scholar text
  let researchgateProfiles := M.researchgate text
  let phones := M.phones text
  let authorInfo := authorInfoOf M.nameMatches text
  let institutions := institutionsOf text
  (authorInfo.take 10).enum.map fun p =>
    { name := p.2
      email := jsIndexOr emails p.1
      orcid := jsIndexOr orcids p.1
      institution := jsIndexOr institutions p.1
      website := websiteFor urls p.2
      linkedin := (jsIndexOr linkedinProfiles p.1).map (fun s => "https://" ++ s)
      google_scholar := (jsIndexOr scholarProfiles p.1).map (fun s => "https://" ++ s)
      researchgate := (jsIndexOr researchgateProfiles p.1).map (fun s => "https://" ++ s)
      research_areas := []
      arxiv_papers := []
      paper_count := 0
      additional_contacts := additionalContactsFor emails phones p.2 }

/-! ## Contact Resolver (`extractContactDetails` and its `POST` route) -/

/-- `ContactExtractionResult` of the extract-contacts route. -/
structure ContactExtractionResult where
  email : Option String := none
  phone : Option String := none
  website : Option String := none
  linkedin : Option String := none
  twitter : Option String := none
  office_address : Option String := none
  department : Option String := none
  additional_contacts : Option (List String) := none
deriving DecidableEq, Repr

/-- Single-match regex primitives of `parseContactsFromText` (first match of
the email/phone/LinkedIn/Twitter patterns in a free text, or `null`). -/
structure TextFinders where
  email : String → Option String
  phone : String → Option String
  linkedin : String → Option String
  twitter : String → Option String

/-- A concrete finder bundle for explicit runs: every scan finds nothing. -/
def emptyFinders : TextFinders where
  email _ := none
  phone _ := none
  linkedin _ := none
  twitter _ := none

/-- `parseContactsFromText`: heuristic field extraction from a free-text
task output. -/
def parseContactsFromText (F : TextFinders) (text : String) : ContactExtractionResult :=
  { email := F.email text
    phone := F.phone text
    linkedin := (F.linkedin text).map fun s => "https://" ++ s
    twitter := (F.twitter text).map fun s => "https://" ++ s }

/-- The payload of a task response besides its status: a structured-output
object (already JSON-decoded), a free-text output, or neither. -/
inductive TaskOutput where
  | structured (c : ContactExtractionResult)
  | text (s : String)
  | noOutput
deriving DecidableEq, Repr

/-- One `GET .../task/{id}/status` response: non-ok HTTP, or a status string
with its payload. -/
inductive PollResp where
  | httpFail
  | ok (status : String) (out : TaskOutput)
deriving DecidableEq, Repr

/-- The `POST .../run-task` response; `taskId = none` also models the falsy
(missing or empty) task-id fields. -/
inductive SubmitResp where
  | httpFail
  | ok (taskId : Option String) (status : String) (out : TaskOutput)
deriving DecidableEq, Repr

/-- Outcome of `extractContactDetails`: a contacts object, JS `null`, or the
timeout object `{ error: ... }` — three mutually distinct values. -/
inductive ExtractOutcome where
  | contacts (c : ContactExtractionResult)
  | nullResult
  | timeoutErr (msg : String)
deriving DecidableEq, Repr

/-- `maxAttempts = 24`. -/
def maxAttempts : Nat := 24

/-- The `{ error: ... }` message built at timeout (24 × 10 s). -/
def timeoutMsg : String :=
  "Contact extraction timed out after 240 seconds. The profile page may be slow to load or require manual verification."

/-- `status === 'completed' || status === 'success'`. -/
def isTerminalSuccess (st : String) : Bool :=
  st == "completed" || st == "success"

/-- `status === 'failed' || status === 'error' || status === 'cancelled'`. -/
def isTerminalFailure (st : String) : Bool :=
  st == "failed" || st == "error" || st == "cancelled"

/-- A status response that ends the poll loop. -/
def isTerminalResp : PollResp → Bool
  | .httpFail => false
  | .ok st _ => isTerminalSuccess st || isTerminalFailure st

/-- Return value on a completed task: structured output is used directly,
free text goes through `parseContactsFromText`, neither gives `null`. -/
def completedOutcome (F : TextFinders) : TaskOutput → ExtractOutcome
  | .structured c => .contacts c
  | .text s => .contacts (parseContactsFromText F s)
  | .noOutput => .nullResult

/-- The poll loop (`while (attempts < maxAttempts)`): each iteration waits
10 seconds and then fetches the status once; a non-ok status response
`continue`s, keeping the already-incremented attempt counter.  Returns the
outcome together with the number of status fetches performed. -/
def pollLoop (F : TextFinders) (polls : Nat → PollResp) :
    Nat → Nat → ExtractOutcome × Nat
  | 0, _ => (.timeoutErr timeoutMsg, 0)
  | remaining + 1, i =>
    match polls i with
    | .httpFail =>
      ((pollLoop F polls remaining (i + 1)).1, (pollLoop F polls remaining (i + 1)).2 + 1)
    | .ok st out =>
      if isTerminalSuccess st then (completedOutcome F out, 1)
      else if isTerminalFailure st then (.nullResult, 1)
      else
        ((pollLoop F polls remaining (i + 1)).1, (pollLoop F polls remaining (i + 1)).2 + 1)

/-- Observable run of `extractContactDetails`: its return value, how many
network requests it made (task submission and status polls, each poll
preceded by a 10-second wait), and whether the missing-credential error was
logged (the only log line modelled). -/
structure ExtractTrace where
  result : ExtractOutcome
  submitCalls : Nat
  pollCalls : Nat
  waitSeconds : Nat
  loggedKeyMissing : Bool
deriving DecidableEq, Repr

/-- `extractContactDetails`: without a `BROWSER_USE_API_KEY` it logs the
missing credential and returns `null` before any network request; otherwise
it submits the task, takes the synchronous result when the submission
response is already completed with an output, and polls up to 24 times
otherwise. -/
def extractContactDetails (F : TextFinders) (token : Option String)
    (submit : SubmitResp) (polls : Nat → PollResp) : ExtractTrace :=
  match token with
  | none =>
    { result := .nullResult, submitCalls := 0, pollCalls := 0, waitSeconds := 0,
      loggedKeyMissing := true }
  | some _ =>
    match submit with
    | .httpFail =>
      { result := .nullResult, submitCalls := 1, pollCalls := 0, waitSeconds := 0,
        loggedKeyMissing := false }
    | .ok none _ _ =>
      { result := .nullResult, submitCalls := 1, pollCalls := 0, waitSeconds := 0,
        loggedKeyMissing := false }
    | .ok (some _) st out =>
      if isTerminalSuccess st ∧ out ≠ TaskOutput.noOutput then
        { result := completedOutcome F out, submitCalls := 1, pollCalls := 0,
          waitSeconds := 0, loggedKeyMissing := false }
      else
        { result := (pollLoop F polls maxAttempts 0).1, submitCalls := 1,
          pollCalls := (pollLoop F polls maxAttempts 0).2,
          waitSeconds := 10 * (pollLoop F polls maxAttempts 0).2,
          loggedKeyMissing := false }

/-- JS truthiness of an optional string (`undefined`, `null`, `""` falsy). -/
def jsTruthy : Option String → Bool
  | none => false
  | some s => !s.isEmpty

/-- `a || b` on optional strings. -/
def jsOrStr (a b : Option String) : Option String :=
  if jsTruthy a then a else b

/-- The fields of the request's `researcher` object read by the contacts
route (`google_scholar_info?.profile_link` flattened). -/
structure ContactReqResearcher where
  name : Option String := none
  scholarProfileLink : Option String := none
  google_scholar : Option String := none
deriving DecidableEq, Repr

/-- Responses of the extract-contacts `POST` handler. -/
inductive ContactsResponse where
  | err (status : Nat) (error : String) (researcher_name : Option String)
  | ok (contacts : ContactExtractionResult) (researcher_name : String)
      (source_url : String)
deriving DecidableEq, Repr

/-- A trace with no calls, for paths that never reach
`extractContactDetails`. -/
def emptyTrace : ExtractTrace :=
  { result := .nullResult, submitCalls := 0, pollCalls := 0, waitSeconds := 0,
    loggedKeyMissing := false }

/-- The extract-contacts `POST` handler: input validation, profile-URL
selection (`google_scholar_info?.profile_link || researcher.google_scholar`),
then the extraction, mapping `null` to a 500 error, the timeout object to a
408 with its message, and contacts to a 200 response. -/
def contactsPOST (F : TextFinders) (token : Option String)
    (researcher : Option ContactReqResearcher)
    (submit : SubmitResp) (polls : Nat → PollResp) :
    ContactsResponse × ExtractTrace :=
  match researcher with
  | none => (.err 400 "Researcher information required" none, emptyTrace)
  | some r =>
    if !jsTruthy r.name then
      (.err 400 "Researcher information required" none, emptyTrace)
    else
      let name := r.name.getD ""
      let profileUrl := jsOrStr r.scholarProfileLink r.google_scholar
      if !jsTruthy profileUrl then
        (.err 400 "No Google Scholar profile URL available for contact extraction. Please ensure the researcher has author details." (some name),
         emptyTrace)
      else
        let tr := extractContactDetails F token submit polls
        match tr.result with
        | .nullResult =>
          (.err 500 "Failed to extract contact details - browser automation may have encountered an issue" (some name), tr)
        | .timeoutErr msg => (.err 408 msg (some name), tr)
        | .contacts c => (.ok c name (profileUrl.getD ""), tr)

/-! ## Google-Scholar batch enrichment route -/

/-- A recent paper inside a `GoogleScholarProfile`. -/
structure ScholarPaper where
  title : String
  year : Option String := none
  cited_by : Option Nat := none
deriving DecidableEq, Repr

/-- `GoogleScholarProfile` of the Scholar route. -/
structure GoogleScholarProfile where
  name : String
  title : Option String := none
  affiliation : Option String := none
  cited_by : Option Nat := none
  profile_link : Option String := none
  research_interests : List String := []
  recent_papers : List ScholarPaper := []
deriving DecidableEq, Repr

/-- Responses of the Scholar batch `POST` handler; each output researcher is
the untouched input payload paired with its added `google_scholar_info`
annotation. -/
inductive ScholarBatchResponse (α : Type) where
  | badRequest (msg : String)
  | ok (researchers : List (α × Option GoogleScholarProfile))
deriving DecidableEq

/-- The Scholar batch `POST` handler.  `body = none` models a missing or
non-array `researchers` field; `lookup` is `searchGoogleScholar`, whose own
`catch` (and the per-researcher `catch` in the map) makes every failure a
`none` annotation; `batchOk = false` is the outer-catch recovery path, which
re-returns the original researchers annotated with `null`. -/
def scholarPOST {α : Type} (lookup : α → Option GoogleScholarProfile)
    (batchOk : Bool) (body : Option (List α)) : ScholarBatchResponse α :=
  match body with
  | none => .badRequest "No researchers provided"
  | some researchers =>
    if batchOk then .ok (researchers.map fun r => (r, lookup r))
    else .ok (researchers.map fun r => (r, none))

/-! ## Supporting lemmas: the stable descending sort -/

theorem insertByCount_perm (r : Researcher) (l : List Researcher) :
    List.Perm (insertByCount r l) (r :: l) := by
  induction l with
  | nil => simp [insertByCount]
  | cons x xs ih =>
    rw [insertByCount]
    by_cases h : r.paper_count < x.paper_count
    · rw [if_pos h]
      exact List.Perm.trans (List.Perm.cons x ih) (List.Perm.swap r x xs)
    · rw [if_neg h]

theorem sortByCountDesc_perm (l : List Researcher) :
    List.Perm (sortByCountDesc l) l := by
  induction l with
  | nil => simp [sortByCountDesc]
  | cons r rs ih =>
    rw [sortByCountDesc]
    exact List.Perm.trans (insertByCount_perm r (sortByCountDesc rs)) (List.Perm.cons r ih)

theorem insertByCount_pairwise {l : List Researcher}
    (hl : l.Pairwise (fun a b => b.paper_count ≤ a.paper_count)) (r : Researcher) :
    (insertByCount r l).Pairwise (fun a b => b.paper_count ≤ a.paper_count) := by
  induction l with
  | nil => simp [insertByCount]
  | cons x xs ih =>
    rw [insertByCount]
    rw [List.pairwise_cons] at hl
    obtain ⟨hx, hxs⟩ := hl
    by_cases h : r.paper_count < x.paper_count
    · rw [if_pos h]
      rw [List.pairwise_cons]
      refine ⟨?_, ih hxs⟩
      intro a ha
      have hmem : a ∈ r :: xs := (insertByCount_perm r xs).mem_iff.mp ha
      rcases List.mem_cons.mp hmem with hr | hin
      · subst hr; omega
      · exact hx a hin
    · rw [if_neg h]
      rw [List.pairwise_cons]
      refine ⟨?_, List.pairwise_cons.mpr ⟨hx, hxs⟩⟩
      intro a ha
      rcases List.mem_cons.mp ha with hax | hin
      · subst hax; omega
      · have := hx a hin; omega

theorem sortByCountDesc_pairwise (l : List Researcher) :
    (sortByCountDesc l).Pairwise (fun a b => b.paper_count ≤ a.paper_count) := by
  induction l with
  | nil => simp [sortByCountDesc]
  | cons r rs ih => exact insertByCount_pairwise ih r

theorem insertByCount_filter_count (r : Researcher) (l : List Researcher) (k : Nat) :
    (insertByCount r l).filter (fun x => x.paper_count == k) =
      if r.paper_count == k then r :: l.filter (fun x => x.paper_count == k)
      else l.filter (fun x => x.paper_count == k) := by
  induction l with
  | nil => by_cases h : r.paper_count == k <;> simp [insertByCount, List.filter, h]
  | cons x xs ih =>
    rw [insertByCount]
    by_cases h : r.paper_count < x.paper_count
    · rw [if_pos h]
      by_cases hr : r.paper_count == k
      · rw [if_pos hr]
        have hx : (x.paper_count == k) = false := by
          have hrk : r.paper_count = k := by simpa using hr
          simp only [beq_eq_false_iff_ne]
          omega
        simp only [List.filter, hx, ih, if_pos hr]
      · rw [if_neg hr]
        simp only [List.filter, ih, if_neg hr]
    · rw [if_neg h]
      by_cases hr : r.paper_count == k
      · rw [if_pos hr]
        simp only [List.filter, hr]
      · rw [if_neg hr]
        simp only [List.filter, hr]

theorem sortByCountDesc_filter_count (l : List Researcher) (k : Nat) :
    (sortByCountDesc l).filter (fun x => x.paper_count == k) =
      l.filter (fun x => x.paper_count == k) := by
  induction l with
  | nil => simp [sortByCountDesc]
  | cons r rs ih =>
    rw [sortByCountDesc, insertByCount_filter_count]
    by_cases hr : r.paper_count == k
    · rw [if_pos hr, ih]
      simp only [List.filter, hr]
    · rw [if_neg hr, ih]
      simp only [List.filter, hr]

/-! ## Claim theorems -/

/-- C5: the Query Translator's fallback generator is deterministic — it is a
pure function of the query string, so equal inputs give equal outputs — and
it is total, always producing either one of the keyword-mapped category
queries or the raw text wrapped as an `all:` fields term. -/
theorem generateFallbackQuery_deterministic_total (q : String) :
    generateFallbackQuery q = generateFallbackQuery q ∧
    (generateFallbackQuery q ∈ categoryQueries ∨
      generateFallbackQuery q = "all:\"" ++ q ++ "\"") := by
  refine ⟨rfl, ?_⟩
  rw [generateFallbackQuery]
  repeat' split
  all_goals first
    | (left; simp [categoryQueries]; done)
    | (right; rfl)

/-- C6 counterexample: the fallback applied to "graph neural networks" does
not yield `cat:cs.LG` — no entry of the keyword table (not even the `ml` or
`ai` substring checks) matches that string. -/
theorem generateFallbackQuery_gnn_not_catLG :
    generateFallbackQuery "graph neural networks" ≠ "cat:cs.LG" := by decide

/-- C6 amended: with the AI service unavailable the fallback applied to
"graph neural networks" wraps the raw text as an all-fields term,
`all:"graph neural networks"`. -/
theorem generateFallbackQuery_gnn_allFields :
    generateFallbackQuery "graph neural networks" = "all:\"graph neural networks\"" := by
  decide

/-- C2: the Profile Enricher batch keeps exactly one output record per input
researcher (the output is a permutation of the per-input enhanced records,
of equal length — nothing dropped or duplicated even when enrichment
fails), sorted descending by `paper_count`, and stably so: for every count
value the records carrying it appear in the same relative order as in the
input. -/
theorem enhanceResearcherInfo_batch (enhance : Researcher → Researcher)
    (researchers : List Researcher) :
    (enhanceResearcherInfo enhance researchers).length = researchers.length ∧
    List.Perm (enhanceResearcherInfo enhance researchers) (researchers.map enhance) ∧
    (enhanceResearcherInfo enhance researchers).Pairwise
      (fun a b => b.paper_count ≤ a.paper_count) ∧
    ∀ k, (enhanceResearcherInfo enhance researchers).filter
        (fun r => r.paper_count == k) =
      (researchers.map enhance).filter (fun r => r.paper_count == k) := by
  refine ⟨?_, sortByCountDesc_perm _, sortByCountDesc_pairwise _,
    fun k => sortByCountDesc_filter_count _ k⟩
  have h := (sortByCountDesc_perm (researchers.map enhance)).length_eq
  simpa [enhanceResearcherInfo] using h

/-- C8: the Scholar batch route returns exactly the original input
researchers — each output record is the untouched input payload with one
added `google_scholar_info` annotation (a profile on success, `null` on any
lookup failure), and neither a per-researcher failure nor the batch-level
catch path replaces the researcher list with an error. -/
theorem scholarPOST_preserves_inputs {α : Type}
    (lookup : α → Option GoogleScholarProfile) (batchOk : Bool)
    (researchers : List α) :
    scholarPOST lookup batchOk (some researchers) =
      .ok (researchers.map fun r => (r, if batchOk then lookup r else none)) ∧
    (researchers.map fun r =>
      (r, if batchOk then lookup r else none)).map Prod.fst = researchers := by
  constructor
  · cases batchOk <;> simp [scholarPOST]
  · simp [List.map_map, Function.comp_def]

/-! ## Supporting lemmas: the poll loop -/

theorem pollLoop_calls_le (F : TextFinders) (polls : Nat → PollResp) :
    ∀ remaining i, (pollLoop F polls remaining i).2 ≤ remaining := by
  intro remaining
  induction remaining with
  | zero => intro i; simp [pollLoop]
  | succ n ih =>
    intro i
    have hrec := ih (i + 1)
    cases hp : polls i with
    | httpFail =>
      simp only [pollLoop, hp]
      omega
    | ok st out =>
      simp only [pollLoop, hp]
      by_cases hs : isTerminalSuccess st
      · simp only [hs, if_true]
        omega
      · by_cases hf : isTerminalFailure st
        · simp only [hs, hf, if_true, if_false, Bool.false_eq_true]
          omega
        · simp only [hs, hf, if_false, Bool.false_eq_true]
          omega

theorem pollLoop_timeout (F : TextFinders) (polls : Nat → PollResp) :
    ∀ remaining i,
      (∀ j, j < remaining → isTerminalResp (polls (i + j)) = false) →
      pollLoop F polls remaining i =
        (ExtractOutcome.timeoutErr timeoutMsg, remaining) := by
  intro remaining
  induction remaining with
  | zero => intro i _; rfl
  | succ n ih =>
    intro i h
    have h0 : isTerminalResp (polls i) = false := by
      have := h 0 (Nat.succ_pos n)
      simpa using this
    have hshift : ∀ j, j < n → isTerminalResp (polls (i + 1 + j)) = false := by
      intro j hj
      have heq : i + 1 + j = i + (j + 1) := by omega
      rw [heq]
      exact h (j + 1) (by omega)
    have hrec := ih (i + 1) hshift
    cases hp : polls i with
    | httpFail =>
      simp only [pollLoop, hp, hrec]
    | ok st out =>
      rw [hp] at h0
      simp only [isTerminalResp, Bool.or_eq_false_iff] at h0
      simp only [pollLoop, hp, h0.1, h0.2, if_false, Bool.false_eq_true, hrec]

theorem pollLoop_calls_first_terminal (F : TextFinders) (polls : Nat → PollResp) :
    ∀ k remaining i, k < remaining →
      (∀ j, j < k → polls (i + j) = PollResp.httpFail) →
      isTerminalResp (polls (i + k)) = true →
      (pollLoop F polls remaining i).2 = k + 1 := by
  intro k
  induction k with
  | zero =>
    intro remaining i hk _ hterm
    obtain ⟨n, rfl⟩ : ∃ n, remaining = n + 1 := ⟨remaining - 1, by omega⟩
    simp only [Nat.add_zero] at hterm
    cases hp : polls i with
    | httpFail => rw [hp] at hterm; simp [isTerminalResp] at hterm
    | ok st out =>
      rw [hp] at hterm
      simp only [isTerminalResp, Bool.or_eq_true] at hterm
      by_cases hs : isTerminalSuccess st
      · simp [pollLoop, hp, hs]
      · have hf : isTerminalFailure st = true := by
          rcases hterm with h' | h'
          · exact absurd h' hs
          · exact h'
        simp [pollLoop, hp, hs, hf]
  | succ k ih =>
    intro remaining i hk hfail hterm
    obtain ⟨n, rfl⟩ : ∃ n, remaining = n + 1 := ⟨remaining - 1, by omega⟩
    have h0 : polls i = PollResp.httpFail := by
      have := hfail 0 (by omega)
      simpa using this
    have hnext : (pollLoop F polls n (i + 1)).2 = k + 1 := by
      apply ih n (i + 1) (by omega)
      · intro j hj
        have heq : i + 1 + j = i + (j + 1) := by omega
        rw [heq]
        exact hfail (j + 1) (by omega)
      · have heq : i + 1 + k = i + (k + 1) := by omega
        rw [heq]
        exact hterm
    simp only [pollLoop, h0]
    omega

/-- C3: the Contact Resolver performs at most 24 polling attempts, each
preceded by one fixed 10-second wait (waited seconds = 10 × status fetches);
once the poll loop is entered (task submitted, task id present, no
synchronous completed-with-output return), observing no terminal status in
those attempts makes it return the timeout object — a value distinct from
every contacts result and from the plain `null` failure — and a failed
(non-ok) status check consumes an attempt instead of resetting the counter:
`k` HTTP-failed checks followed by a terminal status give exactly `k + 1`
status fetches. -/
theorem extractContactDetails_poll_bound (F : TextFinders) (token : Option String)
    (submit : SubmitResp) (polls : Nat → PollResp) :
    (extractContactDetails F token submit polls).pollCalls ≤ 24 ∧
    (extractContactDetails F token submit polls).waitSeconds =
      10 * (extractContactDetails F token submit polls).pollCalls ∧
    (∀ c msg, ExtractOutcome.timeoutErr msg ≠ ExtractOutcome.contacts c ∧
      ExtractOutcome.timeoutErr msg ≠ ExtractOutcome.nullResult) ∧
    (∀ tid st out, token.isSome = true →
      submit = SubmitResp.ok (some tid) st out →
      ¬(isTerminalSuccess st = true ∧ out ≠ TaskOutput.noOutput) →
      ((∀ j, j < 24 → isTerminalResp (polls j) = false) →
        (extractContactDetails F token submit polls).result =
          ExtractOutcome.timeoutErr timeoutMsg ∧
        (extractContactDetails F token submit polls).pollCalls = 24) ∧
      (∀ k, k < 24 → (∀ j, j < k → polls j = PollResp.httpFail) →
        isTerminalResp (polls k) = true →
        (extractContactDetails F token submit polls).pollCalls = k + 1)) := by
  cases token with
  | none =>
    refine ⟨by simp [extractContactDetails], by simp [extractContactDetails], ?_, ?_⟩
    · intro c msg; exact ⟨by simp, by simp⟩
    · intro tid st out htok
      simp at htok
  | some tk =>
    cases submit with
    | httpFail =>
      refine ⟨by simp [extractContactDetails], by simp [extractContactDetails], ?_, ?_⟩
      · intro c msg; exact ⟨by simp, by simp⟩
      · intro tid st out _ hsub
        cases hsub
    | ok tid? st out =>
      cases tid? with
      | none =>
        refine ⟨by simp [extractContactDetails], by simp [extractContactDetails], ?_, ?_⟩
        · intro c msg; exact ⟨by simp, by simp⟩
        · intro tid st' out' _ hsub
          cases hsub
      | some tid =>
        by_cases hsync : isTerminalSuccess st = true ∧ out ≠ TaskOutput.noOutput
        · refine ⟨?_, ?_, ?_, ?_⟩
          · simp [extractContactDetails, hsync]
          · simp [extractContactDetails, hsync]
          · intro c msg; exact ⟨by simp, by simp⟩
          · intro tid' st' out' _ hsub hnsync
            cases hsub
            exact absurd hsync hnsync
        · have hle := pollLoop_calls_le F polls maxAttempts 0
          refine ⟨?_, ?_, ?_, ?_⟩
          · simpa [extractContactDetails, hsync, maxAttempts] using hle
          · simp [extractContactDetails, hsync]
          · intro c msg; exact ⟨by simp, by simp⟩
          · intro tid' st' out' _ hsub _
            cases hsub
            constructor
            · intro hnoterm
              have ht := pollLoop_timeout F polls maxAttempts 0 (by
                intro j hj
                have := hnoterm j (by simpa [maxAttempts] using hj)
                simpa using this)
              rw [show maxAttempts = 24 from rfl] at ht
              constructor
              · simp [extractContactDetails, hsync, maxAttempts, ht]
              · simp [extractContactDetails, hsync, maxAttempts, ht]
            · intro k hk hfail hterm
              have hc := pollLoop_calls_first_terminal F polls k maxAttempts 0
                (by simpa [maxAttempts] using hk)
                (by intro j hj; simpa using hfail j hj)
                (by simpa using hterm)
              simp [extractContactDetails, hsync, hc]

/-- C3 witness: a concrete run — token present, the submission answered with
a queued task, every status check failing — performs the polling and ends in
the timeout object after exactly 24 fetches. -/
theorem extractContactDetails_poll_bound_witness :
    (extractContactDetails
        emptyFinders
        (some "key") (SubmitResp.ok (some "tid") "queued" TaskOutput.noOutput)
        (fun _ => PollResp.httpFail)).result =
      ExtractOutcome.timeoutErr timeoutMsg ∧
    (extractContactDetails
        emptyFinders
        (some "key") (SubmitResp.ok (some "tid") "queued" TaskOutput.noOutput)
        (fun _ => PollResp.httpFail)).pollCalls = 24 :=
  ((extractContactDetails_poll_bound
      emptyFinders
      (some "key") (SubmitResp.ok (some "tid") "queued" TaskOutput.noOutput)
      (fun _ => PollResp.httpFail)).2.2.2 "tid" "queued" TaskOutput.noOutput
    rfl rfl (by decide)).1 (fun j _ => rfl)

/-- C9: with no browser-automation credential configured, a contacts request
supplying a (truthy) profile URL makes no network call at all — no task
submission, no status poll — logs the missing-credential indicator, the
extraction outcome is the `null` unavailable value, and the route reports
the extraction-failure error for that researcher. -/
theorem contactsPOST_no_credential (F : TextFinders) (r : ContactReqResearcher)
    (submit : SubmitResp) (polls : Nat → PollResp)
    (hname : jsTruthy r.name = true)
    (hurl : jsTruthy (jsOrStr r.scholarProfileLink r.google_scholar) = true) :
    contactsPOST F none (some r) submit polls =
      (ContactsResponse.err 500
        "Failed to extract contact details - browser automation may have encountered an issue"
        (some (r.name.getD "")),
       { result := ExtractOutcome.nullResult, submitCalls := 0, pollCalls := 0,
         waitSeconds := 0, loggedKeyMissing := true }) := by
  rw [contactsPOST]
  simp only [hname, hurl, Bool.not_true, if_false, Bool.false_eq_true]
  rfl

/-- C9 witness: a concrete researcher with a Scholar profile link and no
credential gets the 500 extraction-failure response with a zero-request
trace that logged the missing key. -/
theorem contactsPOST_no_credential_witness :
    contactsPOST emptyFinders
        none
        (some { name := some "Jane Roe",
                scholarProfileLink := some "https://scholar.google.com/citations?user=abc",
                google_scholar := none })
        SubmitResp.httpFail (fun _ => PollResp.httpFail) =
      (ContactsResponse.err 500
        "Failed to extract contact details - browser automation may have encountered an issue"
        (some "Jane Roe"),
       { result := ExtractOutcome.nullResult, submitCalls := 0, pollCalls := 0,
         waitSeconds := 0, loggedKeyMissing := true }) :=
  contactsPOST_no_credential _ _ _ _ (by decide) (by decide)

/-! ## Supporting lemmas: entry parsing and the ladder -/

theorem parseEntry_date_ok {cutoff : Option Int} {e : List Char} {p : Paper}
    (h : parseEntry cutoff e = some p) :
    jsDateLtOpt cutoff p.published = false := by
  simp only [parseEntry] at h
  split at h
  · split at h
    · exact absurd h (by simp)
    · next hcond =>
      obtain rfl := Option.some.inj h
      simpa using hcond
  · exact absurd h (by simp)

theorem processEntries_date_ok {cutoff : Option Int} {entries : List (List Char)}
    {p : Paper} (hp : p ∈ processEntries cutoff entries) :
    jsDateLtOpt cutoff p.published = false := by
  rw [processEntries, List.mem_filterMap] at hp
  obtain ⟨e, -, he⟩ := hp
  exact parseEntry_date_ok he

theorem searchPapersTier12_date_ok {cutoff : Option Int} {maxResults : Nat}
    {doc1 : String} {doc2 : Option String} {p : Paper}
    (hp : p ∈ searchPapersTier12 cutoff maxResults doc1 doc2) :
    jsDateLtOpt cutoff p.published = false := by
  simp only [searchPapersTier12] at hp
  split at hp
  · cases doc2 with
    | none => exact processEntries_date_ok hp
    | some d =>
      rcases List.mem_append.mp hp with h | h
      · exact processEntries_date_ok h
      · exact processEntries_date_ok h
  · exact processEntries_date_ok hp

theorem parseEntrySample_authors {e : List Char} {p : Paper}
    (h : parseEntrySample e = some p) : p.authors = ["Sample Research"] := by
  simp only [parseEntrySample] at h
  split at h
  · obtain rfl := Option.some.inj h; rfl
  · exact absurd h (by simp)

theorem parseEntry_none_isSome (e : List Char) :
    (parseEntry none e).isSome = wellFormedEntry e := by
  simp only [parseEntry, wellFormedEntry, jsDateLtOpt]
  cases entryTitle e <;> cases entrySummary e <;> cases entryPublished e <;>
    cases entryId e <;> simp

theorem processEntries_none_filter (es : List (List Char)) :
    processEntries none es =
      (es.filter wellFormedEntry).filterMap (parseEntry none) := by
  induction es with
  | nil => rfl
  | cons e es ih =>
    cases hw : wellFormedEntry e
    · have hnone : parseEntry none e = none := by
        have h := parseEntry_none_isSome e
        rw [hw] at h
        exact Option.not_isSome_iff_eq_none.mp (by simp [h])
      simp only [processEntries, List.filterMap_cons, List.filter_cons, hw, hnone,
        Bool.false_eq_true, if_false] at ih ⊢
      exact ih
    · obtain ⟨p, hp⟩ := Option.isSome_iff_exists.mp
        ((parseEntry_none_isSome e).symm ▸ hw)
      simp only [processEntries, List.filterMap_cons, List.filter_cons, hw, hp,
        if_true] at ih ⊢
      rw [ih]

theorem length_filterMap_of_isSome {α β : Type} (f : α → Option β) :
    ∀ l : List α, (∀ e ∈ l, (f e).isSome = true) →
      (l.filterMap f).length = l.length := by
  intro l
  induction l with
  | nil => intro _; rfl
  | cons e es ih =>
    intro h
    obtain ⟨p, hp⟩ := Option.isSome_iff_exists.mp (h e (List.mem_cons_self e es))
    rw [List.filterMap_cons, hp]
    simp [ih (fun x hx => h x (List.mem_cons_of_mem e hx))]

theorem processEntries_none_length (es : List (List Char)) :
    (processEntries none es).length = (es.filter wellFormedEntry).length := by
  rw [processEntries_none_filter]
  apply length_filterMap_of_isSome
  intro e he
  rw [parseEntry_none_isSome]
  exact (List.mem_filter.mp he).2

/-- C1 counterexample: duration "1month" with current date 2026-10-12, the
primary and simplified-fallback responses contain no entries, and the
last-resort response has one well-formed entry published 2010-01-01.  The
pipeline returns that paper although its publication date is before the
cutoff (its skip test `new Date(published) < cutoffDate` is true): the
last-resort tier applies no date filter. -/
theorem searchPapers_cutoff_violated_by_last_resort :
    searchPapersPipeline (cutoffDays Duration.oneMonth 2026 9 12) 20 "" (some "")
        (some ("<entry><title>Old</title><summary>S</summary>" ++
          "<published>2010-01-01T00:00:00Z</published>" ++
          "<id>http://arxiv.org/abs/1001.0001</id></entry>")) =
      [{ id := "1001.0001", title := "Old", authors := ["Sample Research"],
         summary := "S", published := "2010-01-01",
         link := "http://arxiv.org/abs/1001.0001",
         pdf_url := "http://arxiv.org/pdf/1001.0001.pdf" }] ∧
    jsDateLtOpt (cutoffDays Duration.oneMonth 2026 9 12) "2010-01-01" = true := by
  constructor
  · decide
  · decide

/-- C1 amended: for a duration filter other than "all", every paper the
primary or simplified-fallback tier produces passes the cutoff filter (its
skip test is false), and whenever those two tiers yield any paper the
pipeline returns exactly them — so all returned papers then satisfy the
cutoff; only the last-resort tier, which runs when both earlier tiers end
empty, emits papers without date filtering. -/
theorem searchPapers_tier12_cutoff (dur : Duration) (nowY nowM0 nowD : Int)
    (maxResults : Nat) (doc1 : String) (doc2 doc3 : Option String)
    (hdur : dur ≠ Duration.all) :
    (∀ p ∈ searchPapersTier12 (cutoffDays dur nowY nowM0 nowD) maxResults doc1 doc2,
      jsDateLtOpt (cutoffDays dur nowY nowM0 nowD) p.published = false) ∧
    (searchPapersTier12 (cutoffDays dur nowY nowM0 nowD) maxResults doc1 doc2 ≠ [] →
      searchPapersPipeline (cutoffDays dur nowY nowM0 nowD) maxResults doc1 doc2 doc3 =
        searchPapersTier12 (cutoffDays dur nowY nowM0 nowD) maxResults doc1 doc2) := by
  constructor
  · intro p hp
    exact searchPapersTier12_date_ok hp
  · intro hne
    unfold searchPapersPipeline
    rw [if_neg]
    simpa using hne

/-- C1 witness: with duration 1 month from 2026-10-12 and a primary response
holding one entry published 2026-10-01, the paper passes the filter and the
pipeline returns exactly the first-two-tier output. -/
theorem searchPapers_tier12_cutoff_witness :
    jsDateLtOpt (cutoffDays Duration.oneMonth 2026 9 12)
      (Paper.published
        { id := "2610.00001", title := "Alpha", authors := ["Ann Smith"],
          summary := "Beta", published := "2026-10-01",
          link := "http://arxiv.org/abs/2610.00001",
          pdf_url := "http://arxiv.org/pdf/2610.00001.pdf" }) = false ∧
    searchPapersPipeline (cutoffDays Duration.oneMonth 2026 9 12) 20
        ("<entry><title>Alpha</title><summary>Beta</summary>" ++
          "<published>2026-10-01T00:00:00Z</published>" ++
          "<id>http://arxiv.org/abs/2610.00001</id>" ++
          "<author><name>Ann Smith</name></author></entry>") none none =
      searchPapersTier12 (cutoffDays Duration.oneMonth 2026 9 12) 20
        ("<entry><title>Alpha</title><summary>Beta</summary>" ++
          "<published>2026-10-01T00:00:00Z</published>" ++
          "<id>http://arxiv.org/abs/2610.00001</id>" ++
          "<author><name>Ann Smith</name></author></entry>") none :=
  ⟨(searchPapers_tier12_cutoff Duration.oneMonth 2026 9 12 20
      ("<entry><title>Alpha</title><summary>Beta</summary>" ++
        "<published>2026-10-01T00:00:00Z</published>" ++
        "<id>http://arxiv.org/abs/2610.00001</id>" ++
        "<author><name>Ann Smith</name></author></entry>") none none
      (by decide)).1
    { id := "2610.00001", title := "Alpha", authors := ["Ann Smith"],
      summary := "Beta", published := "2026-10-01",
      link := "http://arxiv.org/abs/2610.00001",
      pdf_url := "http://arxiv.org/pdf/2610.00001.pdf" }
    (by decide),
   (searchPapers_tier12_cutoff Duration.oneMonth 2026 9 12 20
      ("<entry><title>Alpha</title><summary>Beta</summary>" ++
        "<published>2026-10-01T00:00:00Z</published>" ++
        "<id>http://arxiv.org/abs/2610.00001</id>" ++
        "<author><name>Ann Smith</name></author></entry>") none none
      (by decide)).2 (by decide)⟩

/-- C10: when the primary and simplified-fallback tiers both end with zero
papers, the pipeline returns the last-resort papers: at most 5 records
(`slice(0, 5)` of the response entries), every one of them carrying the
placeholder authors list `["Sample Research"]` instead of parsed names. -/
theorem searchPapers_last_resort_shape (cutoff : Option Int) (maxResults : Nat)
    (doc1 : String) (doc2 doc3 : Option String)
    (h12 : searchPapersTier12 cutoff maxResults doc1 doc2 = []) :
    (searchPapersPipeline cutoff maxResults doc1 doc2 doc3).length ≤ 5 ∧
    ∀ p ∈ searchPapersPipeline cutoff maxResults doc1 doc2 doc3,
      p.authors = ["Sample Research"] := by
  unfold searchPapersPipeline
  rw [h12]
  simp only [List.isEmpty_nil, if_true, List.nil_append]
  cases doc3 with
  | none => exact ⟨by simp, by simp⟩
  | some d =>
    constructor
    · calc (((xmlEntries d).take 5).filterMap parseEntrySample).length
          ≤ ((xmlEntries d).take 5).length := List.length_filterMap_le _ _
        _ ≤ 5 := by simp [List.length_take]
    · intro p hp
      rw [List.mem_filterMap] at hp
      obtain ⟨e, -, he⟩ := hp
      exact parseEntrySample_authors he

/-- C10 witness: empty first-two-tier responses and a last-resort response
with two well-formed entries give at most five returned papers, and the
first returned paper carries the placeholder authors. -/
theorem searchPapers_last_resort_shape_witness :
    (searchPapersPipeline none 20 "" none
      (some ("<entry><title>LR one</title><summary>X</summary>" ++
        "<published>2025-05-05T00:00:00Z</published>" ++
        "<id>http://arxiv.org/abs/2505.00001</id></entry>" ++
        "<entry><title>LR two</title><summary>Y</summary>" ++
        "<published>2025-06-06T00:00:00Z</published>" ++
        "<id>http://arxiv.org/abs/2506.00002</id></entry>"))).length ≤ 5 ∧
    Paper.authors
      { id := "2505.00001", title := "LR one", authors := ["Sample Research"],
        summary := "X", published := "2025-05-05",
        link := "http://arxiv.org/abs/2505.00001",
        pdf_url := "http://arxiv.org/pdf/2505.00001.pdf" } = ["Sample Research"] :=
  ⟨(searchPapers_last_resort_shape none 20 "" none
      (some ("<entry><title>LR one</title><summary>X</summary>" ++
        "<published>2025-05-05T00:00:00Z</published>" ++
        "<id>http://arxiv.org/abs/2505.00001</id></entry>" ++
        "<entry><title>LR two</title><summary>Y</summary>" ++
        "<published>2025-06-06T00:00:00Z</published>" ++
        "<id>http://arxiv.org/abs/2506.00002</id></entry>"))
      (by decide)).1,
   (searchPapers_last_resort_shape none 20 "" none
      (some ("<entry><title>LR one</title><summary>X</summary>" ++
        "<published>2025-05-05T00:00:00Z</published>" ++
        "<id>http://arxiv.org/abs/2505.00001</id></entry>" ++
        "<entry><title>LR two</title><summary>Y</summary>" ++
        "<published>2025-06-06T00:00:00Z</published>" ++
        "<id>http://arxiv.org/abs/2506.00002</id></entry>"))
      (by decide)).2
    { id := "2505.00001", title := "LR one", authors := ["Sample Research"],
      summary := "X", published := "2025-05-05",
      link := "http://arxiv.org/abs/2505.00001",
      pdf_url := "http://arxiv.org/pdf/2505.00001.pdf" }
    (by decide)⟩

/-- C7: a response document whose entry scan yields exactly 4 entries, 3 of
them well formed (title, summary, published and id all present) and 1
malformed, parses to exactly 3 Paper records: the output is precisely the
well-formed entries' records in entry order, the malformed entry skipped
without error. -/
theorem processEntries_three_of_four (doc : String)
    (hlen : (xmlEntries doc).length = 4)
    (hwf : ((xmlEntries doc).filter wellFormedEntry).length = 3) :
    (processEntries none (xmlEntries doc)).length = 3 ∧
    processEntries none (xmlEntries doc) =
      ((xmlEntries doc).filter wellFormedEntry).filterMap (parseEntry none) := by
  refine ⟨?_, processEntries_none_filter _⟩
  rw [processEntries_none_length]
  exact hwf

/-- C7 witness: a concrete document with three well-formed entries and one
entry missing its id field parses to exactly 3 records. -/
theorem processEntries_three_of_four_witness :
    (processEntries none (xmlEntries
      ("<entry><title>A</title><summary>a</summary><published>2024-01-01T00:00:00Z</published><id>http://arxiv.org/abs/1</id></entry>" ++
       "<entry><title>B</title><summary>b</summary><published>2024-02-02T00:00:00Z</published><id>http://arxiv.org/abs/2</id></entry>" ++
       "<entry><title>C</title><summary>c</summary><published>2024-03-03T00:00:00Z</published></entry>" ++
       "<entry><title>D</title><summary>d</summary><published>2024-04-04T00:00:00Z</published><id>http://arxiv.org/abs/4</id></entry>"))).length = 3 ∧
    processEntries none (xmlEntries
      ("<entry><title>A</title><summary>a</summary><published>2024-01-01T00:00:00Z</published><id>http://arxiv.org/abs/1</id></entry>" ++
       "<entry><title>B</title><summary>b</summary><published>2024-02-02T00:00:00Z</published><id>http://arxiv.org/abs/2</id></entry>" ++
       "<entry><title>C</title><summary>c</summary><published>2024-03-03T00:00:00Z</published></entry>" ++
       "<entry><title>D</title><summary>d</summary><published>2024-04-04T00:00:00Z</published><id>http://arxiv.org/abs/4</id></entry>")) =
      ((xmlEntries
        ("<entry><title>A</title><summary>a</summary><published>2024-01-01T00:00:00Z</published><id>http://arxiv.org/abs/1</id></entry>" ++
         "<entry><title>B</title><summary>b</summary><published>2024-02-02T00:00:00Z</published><id>http://arxiv.org/abs/2</id></entry>" ++
         "<entry><title>C</title><summary>c</summary><published>2024-03-03T00:00:00Z</published></entry>" ++
         "<entry><title>D</title><summary>d</summary><published>2024-04-04T00:00:00Z</published><id>http://arxiv.org/abs/4</id></entry>")).filter
        wellFormedEntry).filterMap (parseEntry none) :=
  processEntries_three_of_four _ (by decide) (by decide)

/-- C4: the Author/Contact Extractor returns at most 10 researcher records;
its candidate-name scan is a function of the first 30 non-empty lines only
and the institution scan of the first 35 only — two texts agreeing on those
prefixes extract identical names and institutions, whatever the regex
primitives return — and the returned records' names are exactly the first
10 scanned candidate names. -/
theorem extractResearcherContacts_bounds (M : TextMatchers) (t1 t2 : String) :
    (extractResearcherContacts M t1).length ≤ 10 ∧
    ((nonEmptyLines t1).take 30 = (nonEmptyLines t2).take 30 →
      authorInfoOf M.nameMatches t1 = authorInfoOf M.nameMatches t2) ∧
    ((nonEmptyLines t1).take 35 = (nonEmptyLines t2).take 35 →
      institutionsOf t1 = institutionsOf t2) ∧
    (extractResearcherContacts M t1).map Researcher.name =
      (authorInfoOf M.nameMatches t1).take 10 := by
  refine ⟨?_, ?_, ?_, ?_⟩
  · simp only [extractResearcherContacts, List.length_map, List.enum_length,
      List.length_take]
    omega
  · intro h
    rw [authorInfoOf, authorInfoOf, h]
  · intro h
    rw [institutionsOf, institutionsOf, h]
  · simp only [extractResearcherContacts, List.map_map]
    exact List.enum_map_snd _

/-- C4 witness: two texts with the same non-empty-line prefix (one has a
trailing newline) extract the same names and institutions; the record list
of the first text is within the cap. -/
theorem extractResearcherContacts_bounds_witness :
    (extractResearcherContacts
      lineEchoMatchers "Ann Smith\nMIT University").length ≤ 10 ∧
    authorInfoOf (fun l => [l]) "Ann Smith\nMIT University" =
      authorInfoOf (fun l => [l]) "Ann Smith\nMIT University\n" ∧
    institutionsOf "Ann Smith\nMIT University" =
      institutionsOf "Ann Smith\nMIT University\n" :=
  ⟨(extractResearcherContacts_bounds
      lineEchoMatchers
      "Ann Smith\nMIT University" "Ann Smith\nMIT University\n").1,
   (extractResearcherContacts_bounds
      lineEchoMatchers
      "Ann Smith\nMIT University" "Ann Smith\nMIT University\n").2.1 (by decide),
   (extractResearcherContacts_bounds
      lineEchoMatchers
      "Ann Smith\nMIT University" "Ann Smith\nMIT University\n").2.2.1 (by decide)⟩

end NerdRadar

